import Mathlib

/-!
Shallow embedding of `src/ollama_chat_gui.py`, the single source file of the
offline-llm-chat repository. Pure string manipulation is translated directly;
the external collaborators (the `ollama` CLI, the two HTTP endpoints, the Qt
clock and the filesystem) are modelled as explicit parameters: a subprocess
outcome, request/outcome functions for HTTP, timestamp strings, and a store
mapping conversation ids to optional file contents. Python exceptions that
escape a function are modelled with `Except`; exceptions caught inside a
function disappear into its ordinary return value, as in the source.
-/

/-! ### Python string semantics -/

/-- The whitespace characters recognised by Python `str.strip` and no-argument
`str.split` (ASCII subset, which is all the program can meet). -/
def isPySpace (c : Char) : Bool :=
  c = ' ' || c = '\t' || c = '\n' || c = '\r' || c = '\x0b' || c = '\x0c'

/-- Python `str.strip()`: drop leading and trailing whitespace. -/
def pyStrip (s : String) : String :=
  ⟨((s.data.dropWhile isPySpace).reverse.dropWhile isPySpace).reverse⟩

/-- Split a character list at newline characters, keeping empty pieces. -/
def splitLinesAux : List Char → List Char → List (List Char)
  | [], cur => [cur.reverse]
  | c :: cs, cur =>
    if c = '\n' then cur.reverse :: splitLinesAux cs []
    else splitLinesAux cs (c :: cur)

/-- Python `str.splitlines()` for the strings this program feeds it (the
argument is always stripped first, so it is empty or ends in a non-newline
character; on such strings `splitlines` agrees with splitting on the newline
character). -/
def pySplitlines (s : String) : List String :=
  if s.isEmpty then [] else (splitLinesAux s.data []).map String.mk

/-- Accumulate maximal whitespace-free runs, dropping the empty ones. -/
def wsTokensAux : List Char → List Char → List String
  | [], cur => if cur.isEmpty then [] else [String.mk cur.reverse]
  | c :: cs, cur =>
    if isPySpace c then
      if cur.isEmpty then wsTokensAux cs []
      else String.mk cur.reverse :: wsTokensAux cs []
    else wsTokensAux cs (c :: cur)

/-- Python no-argument `str.split()`: split on whitespace runs, dropping the
empty pieces, so a whitespace-only string yields the empty list. -/
def pySplit (s : String) : List String :=
  wsTokensAux s.data []

/-- Python `dict.get(k, default)` on a JSON object whose values are strings,
modelled as an association list. -/
def pyDictGet (d : List (String × String)) (k default : String) : String :=
  match d.find? (fun kv => kv.1 == k) with
  | some kv => kv.2
  | none => default

/-! ### Model Registry Adapter (`list_installed_models`, `fetch_remote_models`) -/

/-- Outcome of `subprocess.check_output(["ollama", "list"], text=True)`:
either some exception (binary missing, non-zero exit, ...) or captured text. -/
inductive SubprocessResult where
  | failure
  | output (s : String)
deriving DecidableEq

/-- The loop `for line in lines[1:]: if line: models.append(line.split()[0])`.
`line.split()[0]` raises `IndexError` when the split result is empty, and
nothing in `list_installed_models` catches it. -/
def parseRows (lines models : List String) : Except String (List String) :=
  match lines with
  | [] => .ok models
  | line :: rest =>
    if line.isEmpty then parseRows rest models
    else
      match pySplit line with
      | [] => .error "IndexError"
      | t :: _ => parseRows rest (models ++ [t])

/-- `list_installed_models()`. The `try` block wraps only the subprocess call,
so a parse failure escapes as an exception (`Except.error`). -/
def list_installed_models : SubprocessResult → Except String (List String)
  | .failure => .ok []
  | .output s => parseRows ((pySplitlines (pyStrip s)).drop 1) []

/-- First whitespace-delimited token of each non-empty row, in order: the
parse that `list_installed_models` performs when no row makes it raise. -/
def firstTokens (lines : List String) : List String :=
  lines.filterMap (fun l => if l.isEmpty then none else (pySplit l).head?)

/-- A JSON dict from the remote catalog's `models` array, as the dialog code
reads it (string keys, string-rendered values). -/
abbrev RemoteModel := List (String × String)

/-- A GET request as issued by `requests.get(url, timeout=...)`. -/
structure GetRequest where
  url : String
  timeout : Nat
deriving DecidableEq

/-- Outcome of the catalog GET: an exception anywhere in
`requests.get` / `raise_for_status` / `resp.json()` (connection error,
timeout, non-2xx, malformed JSON), or a parsed JSON object whose optional
`models` key holds a list (`none` models the key being absent, in which case
`data.get("models", [])` falls back to the default). -/
inductive GetOutcome where
  | exn (msg : String)
  | ok (models : Option (List RemoteModel))

def REMOTE_MODELS_API : String := "https://ollama.ai/api/models"

/-- The one request `fetch_remote_models` issues:
`requests.get(REMOTE_MODELS_API, timeout=10)`. -/
def remote_request : GetRequest := { url := REMOTE_MODELS_API, timeout := 10 }

/-- `fetch_remote_models()`: the `try` wraps the whole body, every exception
becomes `[]`; a response without a `models` key yields the default `[]`. -/
def fetch_remote_models (http : GetRequest → GetOutcome) : List RemoteModel :=
  match http remote_request with
  | .exn _ => []
  | .ok models => models.getD []

/-! ### Conversation Log Store (`log_message`, `list_logs`, `load_log`) -/

/-- The logs directory: conversation id `c` names the file `logs/c.txt`; the
content is `some` text once the file exists, `none` before. -/
abbrev Store := String → Option String

/-- The line `log_message` writes:
`f"[{timestamp}] {speaker}: {text}\n"`. -/
def formatLine (timestamp speaker text : String) : String :=
  "[" ++ timestamp ++ "] " ++ speaker ++ ": " ++ text ++ "\n"

/-- `log_message(conversation, speaker, text)`: open `logs/{conversation}.txt`
in append mode (creating it if absent) and write one formatted line. The
timestamp is the Qt clock's current reading already rendered through the
format `yyyy-MM-dd HH:mm:ss`, passed in as a string. -/
def log_message (timestamp conversation speaker text : String) (store : Store) : Store :=
  fun c =>
    if c = conversation then
      some (((store conversation).getD "") ++ formatLine timestamp speaker text)
    else store c

/-- `load_log(name)`: empty string when the file does not exist, else its
full content. -/
def load_log (name : String) (store : Store) : String :=
  (store name).getD ""

/-- A `logs/*.txt` file as `list_logs` sees it: its stem (the conversation
id) and its modification time `st_mtime`. -/
structure LogFile where
  stem : String
  mtime : Nat
deriving DecidableEq

/-- The sort key relation of
`sorted(files, key=lambda p: p.stat().st_mtime, reverse=True)`:
`a` may come before `b` when `a` has the later (or equal) mtime. -/
def mtimeGe (a b : LogFile) : Prop := b.mtime ≤ a.mtime

instance : DecidableRel mtimeGe := fun a b => Nat.decLe b.mtime a.mtime

instance : IsTotal LogFile mtimeGe := ⟨fun a b => Nat.le_total b.mtime a.mtime⟩

instance : IsTrans LogFile mtimeGe := ⟨fun _ _ _ hab hbc => Nat.le_trans hbc hab⟩

/-- `list_logs()`: sort the log files by modification time, newest first,
and return their stems. -/
def list_logs (files : List LogFile) : List String :=
  (List.insertionSort mtimeGe files).map LogFile.stem

/-- Append a whole sequence of turns to one conversation, each with the
timestamp the clock produced at that call. -/
def appendTurns (conversation : String) : List (String × String × String) → Store → Store
  | [], store => store
  | (ts, speaker, text) :: rest, store =>
      appendTurns conversation rest (log_message ts conversation speaker text store)

/-! ### Chat Dispatcher and window state -/

def OLLAMA_HOST : String := "http://localhost:11434"

/-- The POST request `_request_response` issues:
`requests.post(url, json=payload, timeout=300)` with
`payload = {"model": model, "prompt": prompt, "stream": False}`. -/
structure PostRequest where
  url : String
  model : String
  prompt : String
  stream : Bool
  timeout : Nat
deriving DecidableEq

/-- Outcome of the inference POST: an exception anywhere inside the `try`
(connection refused, timeout, `raise_for_status` on non-2xx, malformed JSON
in `resp.json()`), or a 2xx response parsed to a JSON object. -/
inductive PostOutcome where
  | exn (msg : String)
  | ok (body : List (String × String))

/-- The request `_request_response(model, prompt)` sends. -/
def request_of (model prompt : String) : PostRequest :=
  { url := OLLAMA_HOST ++ "/api/generate", model := model, prompt := prompt,
    stream := false, timeout := 300 }

/-- The `try` body of `_request_response`: every exception is caught and
rendered as `f"Error: {e}"`; on success the reply is
`data.get("response", "")`. -/
def _request_response (http : PostRequest → PostOutcome) (model prompt : String) : String :=
  match http (request_of model prompt) with
  | .exn e => "Error: " ++ e
  | .ok data => pyDictGet data "response" ""

/-- The pieces of `ChatWindow` state the non-GUI logic reads or writes. -/
structure ChatState where
  current_conversation : Option String
  entry : String
  chat_view : String
  model_box : String
  store : Store

/-- Python truthiness of `self.current_conversation` (`None` and the empty
string are falsy). -/
def pyTruthy : Option String → Bool
  | none => false
  | some s => !s.isEmpty

/-- One line appended to a conversation log, recorded for the trace of
writes an operation performs. -/
structure LogEntry where
  conversation : String
  timestamp : String
  speaker : String
  text : String
deriving DecidableEq

/-- `append_chat(speaker, text)`: always extends the chat view; logs to the
current conversation only when one is (truthily) selected. Returns the new
state together with the log lines written. -/
def append_chat (ts speaker text : String) (s : ChatState) : ChatState × List LogEntry :=
  let s1 := { s with chat_view := s.chat_view ++ "<b>" ++ speaker ++ ":</b> " ++ text ++ "\n" }
  match s.current_conversation with
  | some c =>
    if c.isEmpty then (s1, [])
    else ({ s1 with store := log_message ts c speaker text s.store },
          [{ conversation := c, timestamp := ts, speaker := speaker, text := text }])
  | none => (s1, [])

/-- `_append_response(text)`: the queued slot the worker thread invokes;
appends the reply as speaker `"Bot"`. -/
def _append_response (ts text : String) (s : ChatState) : ChatState × List LogEntry :=
  append_chat ts "Bot" text s

/-- `send_message()`: strip the entry; bail out when the text is empty or no
conversation is selected; otherwise clear the entry, append the user turn as
`"You"`, POST to the model, and append the reply as `"Bot"`. Returns the new
state, the log lines written, and the HTTP requests issued. -/
def send_message (ts_user ts_bot : String) (http : PostRequest → PostOutcome)
    (s : ChatState) : ChatState × List LogEntry × List PostRequest :=
  let text := pyStrip s.entry
  if text.isEmpty || !pyTruthy s.current_conversation then (s, [], [])
  else
    let s1 := { s with entry := "" }
    let r2 := append_chat ts_user "You" text s1
    let model := s.model_box
    let response := _request_response http model text
    let r3 := _append_response ts_bot response r2.1
    (r3.1, r2.2 ++ r3.2, [request_of model text])

/-- `new_chat()`: when the name dialog is accepted with a non-empty name,
select that conversation, clear the view, and log the `"system"` turn
`"Started conversation"`. -/
def new_chat (ts : String) (ok : Bool) (name : String) (s : ChatState) : ChatState × List LogEntry :=
  if ok && !name.isEmpty then
    ({ s with current_conversation := some name, chat_view := "",
              store := log_message ts name "system" "Started conversation" s.store },
     [{ conversation := name, timestamp := ts, speaker := "system",
        text := "Started conversation" }])
  else (s, [])

/-- The speakers the program ever passes to `log_message`. -/
def allowedSpeaker (speaker : String) : Bool :=
  speaker == "You" || speaker == "Bot" || speaker == "system"

/-- Concatenate log lines in order. -/
def joinLines (lines : List String) : String :=
  lines.foldr (fun a b => a ++ b) ""

/-! ### Helper lemmas -/

theorem load_log_log_message (ts c speaker text : String) (store : Store) :
    load_log c (log_message ts c speaker text store)
      = load_log c store ++ formatLine ts speaker text := by
  simp [load_log, log_message]

theorem joinLines_cons (l : String) (ls : List String) :
    joinLines (l :: ls) = l ++ joinLines ls := rfl

theorem append_chat_entries (ts speaker text : String) (s : ChatState) :
    (append_chat ts speaker text s).2 = []
      ∨ ∃ c, s.current_conversation = some c ∧ c.isEmpty = false ∧
          (append_chat ts speaker text s).2
            = [{ conversation := c, timestamp := ts, speaker := speaker, text := text }] := by
  unfold append_chat
  cases hc : s.current_conversation with
  | none => exact Or.inl rfl
  | some c =>
    by_cases he : c.isEmpty
    · simp [he]
    · exact Or.inr ⟨c, rfl, by simp [he], by simp [he]⟩

/-! ### Theorems for the claims -/

/-- Claim C2: for every conversation id and every sequence of (timestamp,
speaker, text) turns appended in order via `log_message`, loading the
conversation afterwards yields the previous content followed by exactly the
formatted lines `[timestamp] speaker: text`, in order, with each text embedded
verbatim (byte-identically) — `formatLine` concatenates without any escaping,
so brackets, unicode and any other characters survive unchanged. -/
theorem log_roundtrip_appendTurns (c : String) (turns : List (String × String × String))
    (store : Store) :
    load_log c (appendTurns c turns store)
      = load_log c store ++ joinLines (turns.map fun t => formatLine t.1 t.2.1 t.2.2) := by
  induction turns generalizing store with
  | nil => simp [appendTurns, joinLines, String.append_empty]
  | cons t rest ih =>
    obtain ⟨ts, speaker, text⟩ := t
    rw [appendTurns, ih, load_log_log_message, List.map_cons, joinLines_cons,
      String.append_assoc]

/-- Claim C9: one `log_message` call appends exactly the chunk
`[timestamp] speaker: text` followed by a newline, writing the text verbatim;
the chunk contains one newline more than the text does (timestamps and
speakers written by this program are newline-free), so a text with embedded
newlines spans several physical lines and a newline-free text yields exactly
one line. -/
theorem log_message_writes_text_verbatim (ts c speaker text : String) (store : Store) :
    load_log c (log_message ts c speaker text store)
      = load_log c store ++ formatLine ts speaker text
    ∧ formatLine ts speaker text = "[" ++ ts ++ "] " ++ speaker ++ ": " ++ text ++ "\n"
    ∧ (formatLine ts speaker text).data.count '\n'
        = ts.data.count '\n' + speaker.data.count '\n' + text.data.count '\n' + 1 := by
  refine ⟨load_log_log_message ts c speaker text store, rfl, ?_⟩
  have h1 : "[".data.count '\n' = 0 := rfl
  have h2 : "] ".data.count '\n' = 0 := rfl
  have h3 : ": ".data.count '\n' = 0 := rfl
  have h4 : "\n".data.count '\n' = 1 := rfl
  simp only [formatLine, String.data_append, List.count_append, h1, h2, h3, h4]
  omega

/-- Claim C4: `list_logs` returns the conversation ids (file stems) ordered by
modification time, most recent first: the output is the stems of some
permutation of the files that is sorted by descending mtime; in particular,
with conversation `A` created (mtime 1) then `B` created (mtime 2) then `A`
appended to again (mtime 3), it returns `[A, B]` whichever order the
directory listing produced. -/
theorem list_logs_mtime_descending :
    (∀ files : List LogFile, ∃ sortedFiles, files.Perm sortedFiles
        ∧ List.Sorted mtimeGe sortedFiles
        ∧ list_logs files = sortedFiles.map LogFile.stem)
    ∧ list_logs [⟨"A", 3⟩, ⟨"B", 2⟩] = ["A", "B"]
    ∧ list_logs [⟨"B", 2⟩, ⟨"A", 3⟩] = ["A", "B"] :=
  ⟨fun files =>
    ⟨List.insertionSort mtimeGe files, (List.perm_insertionSort mtimeGe files).symm,
      List.sorted_insertionSort mtimeGe files, rfl⟩,
   by decide, by decide⟩

/-- Claim C7: `fetch_remote_models` issues its single GET with a hard timeout
of 10 seconds, and on any failure outcome — an exception from the request,
status check or JSON parse, or a JSON body lacking the `models` key — it
returns the empty list rather than raising. -/
theorem fetch_remote_models_timeout_and_failure_empty :
    remote_request.timeout = 10
    ∧ (∀ http msg, http remote_request = .exn msg → fetch_remote_models http = [])
    ∧ (∀ http, http remote_request = .ok none → fetch_remote_models http = []) :=
  ⟨rfl,
   fun http msg h => by simp [fetch_remote_models, h],
   fun http h => by simp [fetch_remote_models, h]⟩

theorem fetch_remote_models_timeout_and_failure_empty_witness :
    ((fun _ => GetOutcome.exn "ConnectionError") remote_request
        = GetOutcome.exn "ConnectionError")
    ∧ fetch_remote_models (fun _ => GetOutcome.exn "ConnectionError") = []
    ∧ ((fun _ => GetOutcome.ok none) remote_request = GetOutcome.ok none)
    ∧ fetch_remote_models (fun _ => GetOutcome.ok none) = [] :=
  ⟨rfl,
   fetch_remote_models_timeout_and_failure_empty.2.1 _ "ConnectionError" rfl,
   rfl,
   fetch_remote_models_timeout_and_failure_empty.2.2 _ rfl⟩

/-- Claim C10: when the entered text is empty or whitespace-only after
stripping, or no conversation is (truthily) selected, `send_message` is a
no-op: the state (entry field, view, store and all) is returned unchanged, no
log line is written and no HTTP request is issued. -/
theorem send_message_blank_or_unselected_noop (ts_user ts_bot : String)
    (http : PostRequest → PostOutcome) (s : ChatState)
    (h : (pyStrip s.entry).isEmpty = true ∨ pyTruthy s.current_conversation = false) :
    send_message ts_user ts_bot http s = (s, [], []) := by
  unfold send_message
  rcases h with h | h <;> simp [h]

theorem send_message_blank_or_unselected_noop_witness :
    ((pyStrip (ChatState.mk none "   " "" "llama2" (fun _ => none)).entry).isEmpty = true
      ∨ pyTruthy (ChatState.mk none "   " "" "llama2" (fun _ => none)).current_conversation
          = false)
    ∧ send_message "t1" "t2" (fun _ => PostOutcome.exn "down")
        (ChatState.mk none "   " "" "llama2" (fun _ => none))
      = (ChatState.mk none "   " "" "llama2" (fun _ => none), [], []) :=
  ⟨Or.inl rfl,
   send_message_blank_or_unselected_noop "t1" "t2" (fun _ => PostOutcome.exn "down")
     (ChatState.mk none "   " "" "llama2" (fun _ => none)) (Or.inl rfl)⟩

/-- Claim C1: whatever way the inference POST fails (connection refused,
timeout, non-2xx, malformed JSON — all modelled as an exception from the
`try` body), `_request_response` catches it and produces the string
`"Error: " ++ cause`; when a conversation is selected, queuing that string
through `_append_response` appends exactly that string to the conversation's
log as the reply turn. -/
theorem dispatcher_error_string_logged (http : PostRequest → PostOutcome)
    (model prompt msg : String)
    (hfail : http (request_of model prompt) = .exn msg) :
    _request_response http model prompt = "Error: " ++ msg
    ∧ ∀ ts (s : ChatState) c, s.current_conversation = some c → c.isEmpty = false →
        load_log c (_append_response ts (_request_response http model prompt) s).1.store
          = load_log c s.store ++ formatLine ts "Bot" ("Error: " ++ msg) := by
  have hresp : _request_response http model prompt = "Error: " ++ msg := by
    simp [_request_response, hfail]
  refine ⟨hresp, fun ts s c hc hne => ?_⟩
  simp [_append_response, append_chat, hc, hne, hresp, load_log_log_message]

theorem dispatcher_error_string_logged_witness :
    ((fun _ => PostOutcome.exn "refused") (request_of "llama2" "hello")
        = PostOutcome.exn "refused")
    ∧ _request_response (fun _ => PostOutcome.exn "refused") "llama2" "hello"
        = "Error: " ++ "refused"
    ∧ load_log "chat"
        (_append_response "2024-01-01 00:00:00"
          (_request_response (fun _ => PostOutcome.exn "refused") "llama2" "hello")
          (ChatState.mk (some "chat") "" "" "llama2" (fun _ => none))).1.store
      = load_log "chat" (fun _ => none)
          ++ formatLine "2024-01-01 00:00:00" "Bot" ("Error: " ++ "refused") := by
  have h := dispatcher_error_string_logged (fun _ => PostOutcome.exn "refused")
    "llama2" "hello" "refused" rfl
  exact ⟨rfl, h.1,
    h.2 "2024-01-01 00:00:00" (ChatState.mk (some "chat") "" "" "llama2" (fun _ => none))
      "chat" rfl rfl⟩

/-- Claim C8: a 2xx response whose JSON object has no `response` key makes
`_request_response` return the empty string (`data.get("response", "")`), not
an error string; displaying and logging that reply appends the `Bot` line
with empty text to the view and to the selected conversation's log. -/
theorem missing_response_field_yields_empty_string (http : PostRequest → PostOutcome)
    (model prompt : String) (body : List (String × String))
    (hok : http (request_of model prompt) = .ok body)
    (hnone : body.find? (fun kv => kv.1 == "response") = none) :
    _request_response http model prompt = ""
    ∧ ∀ ts (s : ChatState) c, s.current_conversation = some c → c.isEmpty = false →
        (_append_response ts (_request_response http model prompt) s).1.chat_view
            = s.chat_view ++ "<b>" ++ "Bot" ++ ":</b> " ++ "" ++ "\n"
        ∧ load_log c (_append_response ts (_request_response http model prompt) s).1.store
            = load_log c s.store ++ formatLine ts "Bot" "" := by
  have hresp : _request_response http model prompt = "" := by
    simp [_request_response, hok, pyDictGet, hnone]
  refine ⟨hresp, fun ts s c hc hne => ⟨?_, ?_⟩⟩
  · simp [_append_response, append_chat, hc, hne, hresp]
  · simp [_append_response, append_chat, hc, hne, hresp, load_log_log_message]

theorem missing_response_field_yields_empty_string_witness :
    ((fun _ => PostOutcome.ok [("done", "true")]) (request_of "llama2" "hello")
        = PostOutcome.ok [("done", "true")])
    ∧ ([("done", "true")].find? (fun kv => kv.1 == "response") = none)
    ∧ _request_response (fun _ => PostOutcome.ok [("done", "true")]) "llama2" "hello" = ""
    ∧ load_log "chat"
        (_append_response "ts0"
          (_request_response (fun _ => PostOutcome.ok [("done", "true")]) "llama2" "hello")
          (ChatState.mk (some "chat") "" "" "llama2" (fun _ => none))).1.store
      = load_log "chat" (fun _ => none) ++ formatLine "ts0" "Bot" "" := by
  have h := missing_response_field_yields_empty_string
    (fun _ => PostOutcome.ok [("done", "true")]) "llama2" "hello" [("done", "true")] rfl rfl
  exact ⟨rfl, rfl, h.1,
    (h.2 "ts0" (ChatState.mk (some "chat") "" "" "llama2" (fun _ => none)) "chat" rfl rfl).2⟩

theorem parseRows_ok (rows : List String) :
    ∀ acc, (∀ l ∈ rows, l.isEmpty = false → pySplit l ≠ []) →
      parseRows rows acc = .ok (acc ++ firstTokens rows) := by
  induction rows with
  | nil => intro acc _; simp [parseRows, firstTokens]
  | cons line rest ih =>
    intro acc h
    by_cases hl : line.isEmpty = true
    · rw [parseRows]
      simp only [hl, if_true, firstTokens, List.filterMap_cons]
      exact ih acc fun l hm he => h l (List.mem_cons_of_mem _ hm) he
    · have hne : line.isEmpty = false := by simpa using hl
      have hsp := h line (List.mem_cons_self _ _) hne
      cases hsplit : pySplit line with
      | nil => exact absurd hsplit hsp
      | cons t ts =>
        rw [parseRows]
        simp only [hne, Bool.false_eq_true, if_false, hsplit]
        rw [ih (acc ++ [t]) fun l hm he => h l (List.mem_cons_of_mem _ hm) he]
        have hft : firstTokens (line :: rest) = t :: firstTokens rest := by
          simp [firstTokens, hne, hsplit]
        rw [hft, List.append_assoc]
        rfl

theorem parseRows_error (rows : List String) :
    ∀ acc, (∃ l ∈ rows, l.isEmpty = false ∧ pySplit l = []) →
      ∃ msg, parseRows rows acc = .error msg := by
  induction rows with
  | nil => intro acc h; simp at h
  | cons line rest ih =>
    intro acc h
    obtain ⟨l, hm, hne, hsp⟩ := h
    rcases List.mem_cons.mp hm with rfl | hm'
    · rw [parseRows]
      simp only [hne, Bool.false_eq_true, if_false, hsp]
      exact ⟨"IndexError", rfl⟩
    · by_cases hl : line.isEmpty = true
      · rw [parseRows]
        simp only [hl, if_true]
        exact ih acc ⟨l, hm', hne, hsp⟩
      · have hlf : line.isEmpty = false := by simpa using hl
        cases hsplit : pySplit line with
        | nil =>
          rw [parseRows]
          simp only [hlf, Bool.false_eq_true, if_false, hsplit]
          exact ⟨"IndexError", rfl⟩
        | cons t ts =>
          rw [parseRows]
          simp only [hlf, Bool.false_eq_true, if_false, hsplit]
          exact ih _ ⟨l, hm', hne, hsp⟩

/-- Claim C5: on a successful CLI listing whose every non-empty row after the
header has at least one whitespace-delimited token (the situation the claim
describes), `list_installed_models` returns exactly the first token of each
non-empty row after the header, in order. -/
theorem list_installed_models_parses_first_tokens (s : String)
    (h : ∀ l ∈ (pySplitlines (pyStrip s)).drop 1, l.isEmpty = false → pySplit l ≠ []) :
    list_installed_models (.output s)
      = .ok (firstTokens ((pySplitlines (pyStrip s)).drop 1)) := by
  unfold list_installed_models
  simpa using parseRows_ok _ [] h

theorem list_installed_models_parses_first_tokens_witness :
    (∀ l ∈ (pySplitlines (pyStrip "NAME ID SIZE\nllama2:13b a 1GB\nmistral b 2GB")).drop 1,
        l.isEmpty = false → pySplit l ≠ [])
    ∧ list_installed_models (.output "NAME ID SIZE\nllama2:13b a 1GB\nmistral b 2GB")
        = .ok ["llama2:13b", "mistral"] :=
  ⟨by decide,
   (list_installed_models_parses_first_tokens
      "NAME ID SIZE\nllama2:13b a 1GB\nmistral b 2GB" (by decide)).trans (by rfl)⟩

/-- Claim C3 counterexample: the `try` in `list_installed_models` wraps only
the subprocess call, so a successful invocation whose output contains a
non-empty, all-whitespace row (one space here) makes `line.split()[0]` raise
an uncaught `IndexError` instead of returning `[]`. -/
theorem list_installed_models_raises_on_blank_row :
    list_installed_models (.output "NAME ID SIZE\n \nllama2:13b a 1GB")
      = .error "IndexError" := rfl

/-- Claim C3 (amended): when the CLI invocation itself fails (binary missing,
non-zero exit), `list_installed_models` returns the empty sequence without
raising; but when the invocation succeeds and the output has a non-empty row
after the header from which no whitespace-delimited token can be taken, the
parse raises (`IndexError`) rather than returning. -/
theorem list_installed_models_failure_empty_blank_row_raises :
    list_installed_models .failure = Except.ok []
    ∧ ∀ s, (∃ l ∈ (pySplitlines (pyStrip s)).drop 1, l.isEmpty = false ∧ pySplit l = []) →
        ∃ msg, list_installed_models (.output s) = .error msg :=
  ⟨rfl, fun s h => by unfold list_installed_models; exact parseRows_error _ [] h⟩

theorem list_installed_models_failure_empty_blank_row_raises_witness :
    (∃ l ∈ (pySplitlines (pyStrip "NAME\n\t\nllama2 x")).drop 1,
        l.isEmpty = false ∧ pySplit l = [])
    ∧ ∃ msg, list_installed_models (.output "NAME\n\t\nllama2 x") = .error msg :=
  ⟨by decide,
   list_installed_models_failure_empty_blank_row_raises.2 "NAME\n\t\nllama2 x" (by decide)⟩

theorem append_chat_all_speaker (ts speaker text : String) (s : ChatState)
    (hsp : allowedSpeaker speaker = true) :
    ((append_chat ts speaker text s).2.all fun e => allowedSpeaker e.speaker) = true := by
  rcases append_chat_entries ts speaker text s with h | ⟨c, _, _, h⟩ <;> rw [h]
  · rfl
  · simp [hsp]

/-- Claim C6 counterexample: sending a message writes the user turn with
speaker `"You"` and the reply turn with speaker `"Bot"` — neither of which is
in the claimed set `{"user", "assistant", "system"}`. -/
theorem send_message_logs_speaker_You :
    ((send_message "t1" "t2" (fun _ => PostOutcome.exn "refused")
        (ChatState.mk (some "chat") "hi" "" "llama2" (fun _ => none))).2.1.map
          LogEntry.speaker = ["You", "Bot"])
    ∧ ("You" ∈ (["user", "assistant", "system"] : List String) → False)
    ∧ ("Bot" ∈ (["user", "assistant", "system"] : List String) → False) :=
  ⟨rfl, by decide, by decide⟩

/-- Claim C6 (amended): every turn written to a conversation log by the
program's operations (`new_chat`, `send_message`, and the queued
`_append_response` slot) has a speaker drawn from `{"You", "Bot", "system"}`:
the code labels the user turn `"You"` and the reply turn `"Bot"`, not
`"user"` and `"assistant"`. -/
theorem logged_speakers_subset_You_Bot_system (ts name ts_user ts_bot ts3 text : String)
    (ok : Bool) (http : PostRequest → PostOutcome) (s s2 s3 : ChatState) :
    ((new_chat ts ok name s).2.all fun e => allowedSpeaker e.speaker) = true
    ∧ ((send_message ts_user ts_bot http s2).2.1.all fun e => allowedSpeaker e.speaker) = true
    ∧ ((_append_response ts3 text s3).2.all fun e => allowedSpeaker e.speaker) = true := by
  refine ⟨?_, ?_, append_chat_all_speaker ts3 "Bot" text s3 rfl⟩
  · rw [new_chat]
    split
    · rfl
    · rfl
  · rw [send_message]
    split
    · rfl
    · rw [List.all_append, Bool.and_eq_true]
      exact ⟨append_chat_all_speaker _ _ _ _ rfl, append_chat_all_speaker _ _ _ _ rfl⟩
